import Mathlib

/-!
# Verification of the Apito JS SDK client (`src/client.ts`, `src/types.ts`, typed wrapper)

A shallow embedding of the SDK's client in Lean 4. JavaScript runtime values
are modelled by `JValue` (objects are ordered association lists, as JS object
keys are ordered and unique); JS truthiness, `||` defaulting, optional
chaining (`?.`) and object spread are modelled explicitly. The transport
(axios `post`) is a parameter mapping the single outgoing request to a
result: a parsed GraphQL envelope, an axios error (with optional response),
or an arbitrary thrown value. Every operation returns its result together
with the list of HTTP requests it issued, so "no network call is made" and
"the variables sent" are directly observable. The client object holds only
immutable configuration (its fields are never reassigned after the
constructor), so its state is passed read-only.
-/

set_option autoImplicit false

namespace ApitoSDK

/-- A JavaScript runtime value. Objects keep their (ordered, duplicate-free)
key/value entries; `undefined` is JavaScript `undefined`. -/
inductive JValue where
  | undefined
  | null
  | bool (b : Bool)
  | num (n : Int)
  | str (s : String)
  | arr (elems : List JValue)
  | obj (fields : List (String × JValue))

namespace JValue

/-- JavaScript truthiness: `undefined`, `null`, `false`, `0` and `""` are
falsy; every object and array is truthy. (`NaN` does not arise in this
client, so numbers are integers.) -/
def truthy : JValue → Bool
  | undefined => false
  | null => false
  | bool b => b
  | num n => n != 0
  | str s => s != ""
  | arr _ => true
  | obj _ => true

/-- First binding of key `k` in an association list, if any. -/
def jLookup (k : String) : List (String × JValue) → Option JValue
  | [] => none
  | (k', v) :: rest => if k' = k then some v else jLookup k rest

/-- Property access `v[k]`, as the (guarded) source uses it: reading a key
off a non-object yields `undefined`, matching `?.` access and property
access on primitives. -/
def get (v : JValue) (k : String) : JValue :=
  match v with
  | obj fields => (jLookup k fields).getD undefined
  | _ => undefined

/-- The JavaScript test `v !== undefined`, negated: `true` exactly for
`undefined`. -/
def isUndefined : JValue → Bool
  | undefined => true
  | _ => false

/-- The keys of an object value (empty for non-objects). -/
def objKeys : JValue → List String
  | obj fields => fields.map Prod.fst
  | _ => []

end JValue

open JValue

/-- Assignment `o[k] = v` on an association list: overwrite the first
binding of `k` in place, or append a new binding. -/
def objSet (fields : List (String × JValue)) (k : String) (v : JValue) :
    List (String × JValue) :=
  match fields with
  | [] => [(k, v)]
  | (k', v') :: rest =>
    if k' = k then (k', v) :: rest else (k', v') :: objSet rest k v

/-- Object spread `{...base, ...extra}` where `extra` is already an
association list: each entry of `extra` is assigned over `base` in order. -/
def spread (base extra : List (String × JValue)) : List (String × JValue) :=
  extra.foldl (fun acc kv => objSet acc kv.1 kv.2) base

/-- Spreading an arbitrary value into an object literal: non-objects add no
string-keyed entries relevant to this client (spreading `null`/`undefined`
adds nothing; arrays and strings only add numeric index keys). -/
def spreadJ (base : List (String × JValue)) (v : JValue) :
    List (String × JValue) :=
  match v with
  | .obj fields => spread base fields
  | _ => base

/-- The parsed GraphQL envelope (`GraphQLResponse` in `types.ts`): optional
`data` (here an arbitrary value, `undefined` when absent) and an optional
`errors` array of GraphQL error objects (kept as raw values, since the
client only tests presence/length and passes them through). -/
structure GraphQLResponse where
  respData : JValue := .undefined
  errors : Option (List JValue) := none

/-- The SDK error hierarchy of `types.ts`, flattened: `ApitoError` with its
optional code/statusCode/details; `GraphQLError` (code `GRAPHQL_ERROR`)
carrying the errors sequence and the raw envelope; `ValidationError`
(code `VALIDATION_ERROR`); plus a non-SDK thrown value rethrown unchanged
by `executeGraphQL`'s catch block. `ApitoError`'s message is kept as a raw
value because the source assigns `error.response?.data?.message` to it
untyped. -/
inductive SDKError where
  | apitoError (message : JValue) (code : Option String)
      (statusCode : Option Nat) (details : JValue)
  | graphQLError (message : String) (graphQLErrors : List JValue)
      (response : GraphQLResponse)
  | validationError (message : String)
  | jsException (e : JValue)

/-- The machine-readable `code` of each error class. -/
def SDKError.code : SDKError → Option String
  | .apitoError _ c _ _ => c
  | .graphQLError _ _ _ => some "GRAPHQL_ERROR"
  | .validationError _ => some "VALIDATION_ERROR"
  | .jsException _ => none

/-- The `response` attached to an axios error: HTTP status and parsed body
(`error.response.status`, `error.response.data`). -/
structure AxiosErrorResponse where
  status : Nat
  body : JValue

/-- Outcome of the single `httpClient.post`: a 2xx response with parsed
envelope, an axios-recognised failure (network error, non-2xx, timeout)
with optional response, or an arbitrary thrown value (`axios.isAxiosError`
false). -/
inductive HttpResult where
  | success (resp : GraphQLResponse)
  | axiosFailure (message : String) (response : Option AxiosErrorResponse)
  | thrown (e : JValue)

/-- The fixed GraphQL documents of `client.ts`, one per string literal.
Their text is hard-coded in the source and never inspected by the client,
so each is modelled as an opaque distinct tag. -/
inductive GqlDoc where
  | generateTenantTokenDoc
  | getSingleDataDoc
  | getModelDataDoc
  | getModelDataConnectionDoc
  | createNewDataDoc
  | updateModelDataDoc
  | deleteDataDoc
  | debugDoc
deriving DecidableEq, Repr

/-- One HTTP POST as issued by `executeGraphQL`: URL, body
(`{query, variables}`) and per-request headers; `vars` is the source's
`variables` (a reserved word in Lean). -/
structure HttpRequest where
  url : String
  query : GqlDoc
  vars : List (String × JValue)
  headers : List (String × JValue)

/-- `ClientConfig` of `types.ts`. `timeout`, `tenantId` and `httpClient`
are optional (`undefined` when absent) and are consumed with JS truthiness, so
they are kept as raw values. -/
structure ClientConfig where
  baseURL : String
  apiKey : String
  timeout : JValue := .undefined
  httpClient : JValue := .undefined
  tenantId : JValue := .undefined

/-- The configuration object passed to `axios.create` by the constructor:
`{timeout: config.timeout || 30000, headers: {...}, ...config.httpClient}`. -/
def axiosCreateConfig (config : ClientConfig) : List (String × JValue) :=
  spreadJ
    [("timeout", if config.timeout.truthy then config.timeout else .num 30000),
     ("headers", .obj [("Content-Type", .str "application/json"),
                       ("X-Apito-Key", .str config.apiKey)])]
    config.httpClient

/-- The immutable fields of `ApitoClient` after the constructor ran. None
of them is ever reassigned by any method. -/
structure ApitoClientState where
  baseURL : String
  apiKey : String
  tenantId : JValue := .undefined

/-- The `ApitoClient` constructor: capture `baseURL`, `apiKey`, `tenantId`. -/
def mkClient (config : ClientConfig) : ApitoClientState :=
  { baseURL := config.baseURL, apiKey := config.apiKey
    tenantId := config.tenantId }

/-- The per-request headers built by `executeGraphQL`: content type, API
key, and — when `options?.tenantId || this.tenantId` is truthy — the
`X-Apito-Tenant-ID` header holding that value (per-call id first). -/
def execHeaders (apiKey : String) (clientTenantId optTenantId : JValue) :
    List (String × JValue) :=
  let base := [("Content-Type", JValue.str "application/json"),
               ("X-Apito-Key", JValue.str apiKey)]
  if optTenantId.truthy || clientTenantId.truthy then
    base ++ [("X-Apito-Tenant-ID",
              if optTenantId.truthy then optTenantId else clientTenantId)]
  else base

/-- `error.response?.data`: the body attached to an axios error,
`undefined` when the error carries no response. -/
def axiosBody : Option AxiosErrorResponse → JValue
  | some r => r.body
  | none => .undefined

/-- The `ApitoError` built in `executeGraphQL`'s catch block for an axios
failure: message `error.response?.data?.message || error.message`, code
`HTTP_ERROR`, the response's status (`error.response?.status`) and body
(`error.response?.data`). -/
def httpFailureError (message : String) (response : Option AxiosErrorResponse) :
    SDKError :=
  .apitoError
    (if ((axiosBody response).get "message").truthy
     then (axiosBody response).get "message" else .str message)
    (some "HTTP_ERROR")
    (response.map AxiosErrorResponse.status)
    (axiosBody response)

/-- `executeGraphQL`: build the payload and headers, POST once, and
classify the outcome. A successful response whose `errors` array is
non-empty raises `GraphQLError` with those errors and the raw envelope; an
axios failure raises `ApitoError` with code `HTTP_ERROR`; anything else
thrown propagates unchanged. Returns the result together with the list of
requests issued (always exactly one). -/
def executeGraphQL (st : ApitoClientState) (query : GqlDoc)
    (variables? : Option (List (String × JValue))) (optTenantId : JValue)
    (transport : HttpRequest → HttpResult) :
    Except SDKError GraphQLResponse × List HttpRequest :=
  let req : HttpRequest :=
    { url := st.baseURL, query := query
      vars := variables?.getD []
      headers := execHeaders st.apiKey st.tenantId optTenantId }
  match transport req with
  | .success resp =>
    match resp.errors with
    | some es =>
      if es.length > 0 then
        (.error (.graphQLError "GraphQL query failed" es resp), [req])
      else (.ok resp, [req])
    | none => (.ok resp, [req])
  | .axiosFailure msg response => (.error (httpFailureError msg response), [req])
  | .thrown e => (.error (.jsException e), [req])

/-- The response-unwrapping step shared by the resource operations: an
executor error propagates unchanged; on success the named field of
`response.data` is returned, unless it is falsy, in which case the
operation's `ValidationError` is raised. -/
def unwrapField (field errMsg : String)
    (r : Except SDKError GraphQLResponse × List HttpRequest) :
    Except SDKError JValue × List HttpRequest :=
  match r with
  | (.error e, log) => (.error e, log)
  | (.ok resp, log) =>
    let d := resp.respData.get field
    if d.truthy then (.ok d, log)
    else (.error (.validationError errMsg), log)

/-- `await` on the executor inside an operation: an executor error
propagates unchanged (the operation rethrows it); on success the
operation's own continuation runs on the envelope. -/
def withResponse {α : Type}
    (f : GraphQLResponse → List HttpRequest → Except SDKError α × List HttpRequest)
    (r : Except SDKError GraphQLResponse × List HttpRequest) :
    Except SDKError α × List HttpRequest :=
  match r with
  | (.error e, log) => (.error e, log)
  | (.ok resp, log) => f resp log

/-- Apply `f` to a successful operation result, leaving errors and the
request log untouched (the typed wrapper's post-processing). -/
def mapOkResult (f : JValue → JValue)
    (r : Except SDKError JValue × List HttpRequest) :
    Except SDKError JValue × List HttpRequest :=
  match r with
  | (.error e, log) => (.error e, log)
  | (.ok v, log) => (.ok (f v), log)

/-- `generateTenantToken`: one mutation with `{token, tenantId}` variables,
executed with the per-call tenant id; unwraps
`data?.generateTenantToken.token`, raising `ValidationError` when the token
is absent (falsy). -/
def generateTenantToken (st : ApitoClientState) (token tenantId : String)
    (transport : HttpRequest → HttpResult) :
    Except SDKError JValue × List HttpRequest :=
  let vars := [("token", JValue.str token), ("tenantId", JValue.str tenantId)]
  withResponse
    (fun resp log =>
      let d := resp.respData.get "generateTenantToken"
      if (d.get "token").truthy then (.ok (d.get "token"), log)
      else (.error (.validationError "Invalid response format for tenant token"),
            log))
    (executeGraphQL st .generateTenantTokenDoc (some vars) (.str tenantId)
      transport)

/-- `getSingleResource`: one query with variables
`{model, _id, single_page_data}`; unwraps `data?.getSingleData`, raising
`ValidationError("Resource not found")` when that field is falsy. -/
def getSingleResource (st : ApitoClientState) (model id : String)
    (singlePageData : Bool) (transport : HttpRequest → HttpResult) :
    Except SDKError JValue × List HttpRequest :=
  let vars := [("model", JValue.str model), ("_id", JValue.str id),
               ("single_page_data", JValue.bool singlePageData)]
  unwrapField "getSingleData" "Resource not found"
    (executeGraphQL st .getSingleDataDoc (some vars) .undefined transport)

/-- The variables of `searchResources`: `{model, ...filter}` — the filter
map is spread over (and after) the `model` entry. -/
def searchVariables (model : String) (filter : List (String × JValue)) :
    List (String × JValue) :=
  spread [("model", JValue.str model)] filter

/-- `searchResources`: one query with `{model, ...filter}` variables;
unwraps `data?.getModelData`, raising `ValidationError` when that field is
falsy. The `aggregate` argument is accepted but unused, as in the source. -/
def searchResources (st : ApitoClientState) (model : String)
    (filter : List (String × JValue)) (aggregate : Bool)
    (transport : HttpRequest → HttpResult) :
    Except SDKError JValue × List HttpRequest :=
  unwrapField "getModelData" "Invalid search response format"
    (executeGraphQL st .getModelDataDoc (some (searchVariables model filter))
      .undefined transport)

/-- One conditional assignment `if (filter.k !== undefined)
variables.k = filter.k` of `getRelationDocuments`, as the object entry it
contributes. -/
def filterChunk (filter : JValue) (k : String) : List (String × JValue) :=
  if (filter.get k).isUndefined then [] else [(k, filter.get k)]

/-- The variables of `getRelationDocuments` once validation passed:
`connection` and `model` always, then `page`/`limit`/`where`/`search`
copied from `connection.filter` when `connection.filter` is truthy and the
field is not `undefined` (the source tests `!== undefined`). -/
def relationVariables (connection : JValue) : List (String × JValue) :=
  let filter := connection.get "filter"
  [("connection", connection), ("model", connection.get "model")] ++
  (if filter.truthy then
     filterChunk filter "page" ++ filterChunk filter "limit" ++
     filterChunk filter "where" ++ filterChunk filter "search"
   else [])

/-- `getRelationDocuments`: requires a truthy `connection.model` before any
request is issued, then runs one query with `relationVariables` and unwraps
`data?.getModelData`. The `id` argument is accepted but never forwarded, as
in the source. -/
def getRelationDocuments (st : ApitoClientState) (id : String)
    (connection : JValue) (transport : HttpRequest → HttpResult) :
    Except SDKError JValue × List HttpRequest :=
  if ¬ (connection.get "model").truthy then
    (.error (.validationError "model is required in connection parameters"), [])
  else
    unwrapField "getModelData" "Invalid relation documents response format"
      (executeGraphQL st .getModelDataConnectionDoc
        (some (relationVariables connection)) .undefined transport)

/-- `CreateAndUpdateRequest` of `types.ts`; every field is consumed with JS
truthiness, so all are kept as raw values (`undefined` when absent). -/
structure CreateAndUpdateRequest where
  id : JValue := .undefined
  model : JValue := .undefined
  payload : JValue := .undefined
  connect : JValue := .undefined
  disconnect : JValue := .undefined
  singlePageData : JValue := .undefined
  forceUpdate : JValue := .undefined

/-- The variables of `createNewResource` once validation passed: `model`,
`payload`, `single_page_data` (defaulted to `false` via `||`), plus
`connect` when truthy. -/
def createVariables (request : CreateAndUpdateRequest) :
    List (String × JValue) :=
  [("model", request.model), ("payload", request.payload),
   ("single_page_data",
    if request.singlePageData.truthy then request.singlePageData
    else .bool false)] ++
  (if request.connect.truthy then [("connect", request.connect)] else [])

/-- `createNewResource`: validates `model` then `payload` (truthiness)
before any request; then one mutation and unwrap of
`data?.upsertModelData`. -/
def createNewResource (st : ApitoClientState)
    (request : CreateAndUpdateRequest)
    (transport : HttpRequest → HttpResult) :
    Except SDKError JValue × List HttpRequest :=
  if ¬ request.model.truthy then
    (.error (.validationError "model is required"), [])
  else if ¬ request.payload.truthy then
    (.error (.validationError "payload is required"), [])
  else
    unwrapField "upsertModelData" "Invalid create response format"
      (executeGraphQL st .createNewDataDoc (some (createVariables request))
        .undefined transport)

/-- The variables of `updateResource` once validation passed: `_id`,
`model`, `payload`, `single_page_data` and `force_update` (both defaulted
to `false` via `||`), plus `connect`/`disconnect` when truthy. -/
def updateVariables (request : CreateAndUpdateRequest) :
    List (String × JValue) :=
  [("_id", request.id), ("model", request.model), ("payload", request.payload),
   ("single_page_data",
    if request.singlePageData.truthy then request.singlePageData
    else .bool false),
   ("force_update",
    if request.forceUpdate.truthy then request.forceUpdate
    else .bool false)] ++
  (if request.connect.truthy then [("connect", request.connect)] else []) ++
  (if request.disconnect.truthy then [("disconnect", request.disconnect)]
   else [])

/-- `updateResource`: validates `id`, then `model`, then `payload`
(truthiness) before any request; then one mutation and unwrap of
`data?.upsertModelData`. -/
def updateResource (st : ApitoClientState) (request : CreateAndUpdateRequest)
    (transport : HttpRequest → HttpResult) :
    Except SDKError JValue × List HttpRequest :=
  if ¬ request.id.truthy then
    (.error (.validationError "id is required"), [])
  else if ¬ request.model.truthy then
    (.error (.validationError "model is required"), [])
  else if ¬ request.payload.truthy then
    (.error (.validationError "payload is required"), [])
  else
    unwrapField "upsertModelData" "Invalid update response format"
      (executeGraphQL st .updateModelDataDoc (some (updateVariables request))
        .undefined transport)

/-- `deleteResource`: one mutation with `{model, _id}` variables; nothing
is unwrapped, success is the absence of a thrown error. -/
def deleteResource (st : ApitoClientState) (model id : String)
    (transport : HttpRequest → HttpResult) :
    Except SDKError Unit × List HttpRequest :=
  withResponse (fun _ log => (.ok (), log))
    (executeGraphQL st .deleteDataDoc
      (some [("model", JValue.str model), ("_id", JValue.str id)])
      .undefined transport)

/-- `debug`: one mutation with `{stage, data}` variables (the rest
arguments gathered into an array); returns `data?.debug` unvalidated. -/
def debug (st : ApitoClientState) (stage : String) (dataArgs : List JValue)
    (transport : HttpRequest → HttpResult) :
    Except SDKError JValue × List HttpRequest :=
  withResponse (fun resp log => (.ok (resp.respData.get "debug"), log))
    (executeGraphQL st .debugDoc
      (some [("stage", JValue.str stage), ("data", JValue.arr dataArgs)])
      .undefined transport)

/-- The object literal `{results: result.results, count: result.count}`
rebuilt by `searchResourcesTyped` and `getRelationDocumentsTyped` from the
underlying result. -/
def projectSearchResult (r : JValue) : JValue :=
  .obj [("results", r.get "results"), ("count", r.get "count")]

/-- `TypedOperations.getSingleResourceTyped`: awaits the untyped method and
returns its result with a compile-time-only cast. -/
def getSingleResourceTyped (st : ApitoClientState) (model id : String)
    (singlePageData : Bool) (transport : HttpRequest → HttpResult) :
    Except SDKError JValue × List HttpRequest :=
  getSingleResource st model id singlePageData transport

/-- `TypedOperations.searchResourcesTyped`: awaits the untyped method and
rebuilds the result as `{results: result.results, count: result.count}`. -/
def searchResourcesTyped (st : ApitoClientState) (model : String)
    (filter : List (String × JValue)) (aggregate : Bool)
    (transport : HttpRequest → HttpResult) :
    Except SDKError JValue × List HttpRequest :=
  mapOkResult projectSearchResult
    (searchResources st model filter aggregate transport)

/-- `TypedOperations.getRelationDocumentsTyped`: awaits the untyped method
and rebuilds the result as `{results: result.results, count: result.count}`. -/
def getRelationDocumentsTyped (st : ApitoClientState) (id : String)
    (connection : JValue) (transport : HttpRequest → HttpResult) :
    Except SDKError JValue × List HttpRequest :=
  mapOkResult projectSearchResult
    (getRelationDocuments st id connection transport)

/-- `TypedOperations.createNewResourceTyped`: awaits the untyped method and
returns its result with a compile-time-only cast. -/
def createNewResourceTyped (st : ApitoClientState)
    (request : CreateAndUpdateRequest)
    (transport : HttpRequest → HttpResult) :
    Except SDKError JValue × List HttpRequest :=
  createNewResource st request transport

/-- `TypedOperations.updateResourceTyped`: awaits the untyped method and
returns its result with a compile-time-only cast. -/
def updateResourceTyped (st : ApitoClientState)
    (request : CreateAndUpdateRequest)
    (transport : HttpRequest → HttpResult) :
    Except SDKError JValue × List HttpRequest :=
  updateResource st request transport

theorem jLookup_append_some {k : String} {v : JValue}
    {l₁ : List (String × JValue)} (l₂ : List (String × JValue))
    (h : jLookup k l₁ = some v) : jLookup k (l₁ ++ l₂) = some v := by
  induction l₁ with
  | nil => simp [jLookup] at h
  | cons p rest ih =>
    obtain ⟨k', v'⟩ := p
    by_cases hk : k' = k <;> simp_all [jLookup]

theorem jLookup_append_none {k : String} {l₁ : List (String × JValue)}
    (l₂ : List (String × JValue)) (h : jLookup k l₁ = none) :
    jLookup k (l₁ ++ l₂) = jLookup k l₂ := by
  induction l₁ with
  | nil => simp
  | cons p rest ih =>
    obtain ⟨k', v'⟩ := p
    by_cases hk : k' = k <;> simp_all [jLookup]

theorem jLookup_eq_none_iff {k : String} {l : List (String × JValue)} :
    jLookup k l = none ↔ k ∉ l.map Prod.fst := by
  induction l with
  | nil => simp [jLookup]
  | cons p rest ih =>
    obtain ⟨k', v'⟩ := p
    by_cases hk : k' = k
    · subst hk
      simp [jLookup]
    · have hk' : ¬ (k = k') := fun h => hk h.symm
      simp [jLookup, hk, hk', ih]

theorem jLookup_objSet_self (l : List (String × JValue)) (k : String)
    (v : JValue) : jLookup k (objSet l k v) = some v := by
  induction l with
  | nil => simp [objSet, jLookup]
  | cons p rest ih =>
    obtain ⟨k', v'⟩ := p
    by_cases hk : k' = k <;> simp_all [objSet, jLookup]

theorem jLookup_objSet_ne (l : List (String × JValue)) {k k' : String}
    (v : JValue) (h : k' ≠ k) : jLookup k (objSet l k' v) = jLookup k l := by
  induction l with
  | nil => simp [objSet, jLookup, h]
  | cons p rest ih =>
    obtain ⟨k₀, v₀⟩ := p
    by_cases hk : k₀ = k'
    · subst hk; simp [objSet, jLookup, h]
    · by_cases hk2 : k₀ = k <;> simp_all [objSet, jLookup]

theorem jLookup_spread_none {k : String} {extra : List (String × JValue)}
    (base : List (String × JValue)) (h : jLookup k extra = none) :
    jLookup k (spread base extra) = jLookup k base := by
  induction extra generalizing base with
  | nil => rfl
  | cons p rest ih =>
    obtain ⟨k', v'⟩ := p
    by_cases hk : k' = k
    · subst hk
      simp [jLookup] at h
    · simp only [jLookup, if_neg hk] at h
      rw [show spread base ((k', v') :: rest) = spread (objSet base k' v') rest
            from rfl,
          ih _ h, jLookup_objSet_ne _ _ hk]

theorem jLookup_spread_not_mem {k : String} {extra : List (String × JValue)}
    (base : List (String × JValue)) (h : k ∉ extra.map Prod.fst) :
    jLookup k (spread base extra) = jLookup k base :=
  jLookup_spread_none base (jLookup_eq_none_iff.mpr h)

theorem jLookup_spread_mem_nodup {k : String} {v : JValue}
    {extra : List (String × JValue)} (base : List (String × JValue))
    (hnd : (extra.map Prod.fst).Nodup) (h : jLookup k extra = some v) :
    jLookup k (spread base extra) = some v := by
  induction extra generalizing base with
  | nil => simp [jLookup] at h
  | cons p rest ih =>
    obtain ⟨k', v'⟩ := p
    simp only [List.map_cons, List.nodup_cons] at hnd
    by_cases hk : k' = k
    · subst hk
      simp only [jLookup, if_pos rfl, if_true, eq_self_iff_true,
        Option.some.injEq] at h
      subst h
      rw [show spread base ((k', v') :: rest) = spread (objSet base k' v') rest
            from rfl,
          jLookup_spread_not_mem _ hnd.1, jLookup_objSet_self]
    · simp only [jLookup, if_neg hk] at h
      exact ih _ hnd.2 h

theorem get_eq_undefined_of_not_mem_keys {v : JValue} {k : String}
    (h : k ∉ v.objKeys) : v.get k = .undefined := by
  match v with
  | .undefined | .null | .bool _ | .num _ | .str _ | .arr _ => rfl
  | .obj fields =>
    have h' : jLookup k fields = none := jLookup_eq_none_iff.mpr h
    simp [JValue.get, h']

theorem truthy_of_get_not_undefined {v : JValue} {k : String}
    (h : (v.get k).isUndefined = false) : v.truthy = true := by
  cases v <;> simp_all [JValue.get, JValue.isUndefined, JValue.truthy]

theorem unwrapField_log (field errMsg : String)
    (r : Except SDKError GraphQLResponse × List HttpRequest) :
    (unwrapField field errMsg r).2 = r.2 := by
  obtain ⟨res, log⟩ := r
  cases res <;> simp [unwrapField]
  split <;> rfl

theorem unwrapField_error {e : SDKError} (field errMsg : String)
    (r : Except SDKError GraphQLResponse × List HttpRequest)
    (h : r.1 = .error e) : (unwrapField field errMsg r).1 = .error e := by
  obtain ⟨res, log⟩ := r
  cases res <;> simp_all [unwrapField]

theorem mapOkResult_log (f : JValue → JValue)
    (r : Except SDKError JValue × List HttpRequest) :
    (mapOkResult f r).2 = r.2 := by
  obtain ⟨res, log⟩ := r
  cases res <;> rfl

theorem mapOkResult_fst (f : JValue → JValue)
    (r : Except SDKError JValue × List HttpRequest) :
    (mapOkResult f r).1 = r.1.map f := by
  obtain ⟨res, log⟩ := r
  cases res <;> rfl

/-- The single request `executeGraphQL` issues, whatever the transport
answers. -/
theorem executeGraphQL_log (st : ApitoClientState) (query : GqlDoc)
    (variables? : Option (List (String × JValue))) (optTenantId : JValue)
    (transport : HttpRequest → HttpResult) :
    (executeGraphQL st query variables? optTenantId transport).2 =
      [{ url := st.baseURL, query := query, vars := variables?.getD [],
         headers := execHeaders st.apiKey st.tenantId optTenantId }] := by
  simp only [executeGraphQL]
  split
  · split
    · split <;> rfl
    · rfl
  · rfl
  · rfl

/-- A successful response with a non-empty `errors` array always yields the
`GraphQLError` carrying those errors and the raw envelope. -/
theorem executeGraphQL_errors_nonempty {resp : GraphQLResponse}
    {es : List JValue} (st : ApitoClientState) (query : GqlDoc)
    (variables? : Option (List (String × JValue))) (optTenantId : JValue)
    (transport : HttpRequest → HttpResult)
    (ht : ∀ req, transport req = .success resp)
    (h : resp.errors = some es) (hne : es ≠ []) :
    (executeGraphQL st query variables? optTenantId transport).1 =
      .error (.graphQLError "GraphQL query failed" es resp) := by
  unfold executeGraphQL
  simp [ht, h, List.length_pos.mpr hne]

/-- An axios failure always yields the wrapped `HTTP_ERROR`. -/
theorem executeGraphQL_axios_failure {msg : String}
    {response : Option AxiosErrorResponse} (st : ApitoClientState)
    (query : GqlDoc) (variables? : Option (List (String × JValue)))
    (optTenantId : JValue) (transport : HttpRequest → HttpResult)
    (ht : ∀ req, transport req = .axiosFailure msg response) :
    (executeGraphQL st query variables? optTenantId transport).1 =
      .error (httpFailureError msg response) := by
  unfold executeGraphQL
  simp [ht]

theorem withResponse_error {α : Type} {e : SDKError}
    (f : GraphQLResponse → List HttpRequest →
      Except SDKError α × List HttpRequest)
    (r : Except SDKError GraphQLResponse × List HttpRequest)
    (h : r.1 = .error e) : (withResponse f r).1 = .error e := by
  obtain ⟨res, log⟩ := r
  cases res <;> simp_all [withResponse]

theorem get_isUndefined_of_not_truthy {v : JValue} {k : String}
    (h : v.truthy = false) : (v.get k).isUndefined = true := by
  cases v <;> simp_all [JValue.truthy, JValue.get, JValue.isUndefined]

theorem jLookup_filterChunk_self (filter : JValue) (k : String) :
    jLookup k (filterChunk filter k) =
      if (filter.get k).isUndefined then none else some (filter.get k) := by
  unfold filterChunk
  split <;> simp [jLookup]

theorem jLookup_filterChunk_ne {k k' : String} (filter : JValue) (h : k' ≠ k) :
    jLookup k (filterChunk filter k') = none := by
  unfold filterChunk
  split <;> simp [jLookup, h]

theorem jLookup_spreadJ_not_mem {k : String} {v : JValue}
    (base : List (String × JValue)) (h : k ∉ v.objKeys) :
    jLookup k (spreadJ base v) = jLookup k base := by
  cases v <;> try rfl
  exact jLookup_spread_not_mem base h

/-- C3: a call to `updateResource` whose request is missing `id`, `model`
or `payload` (falsy, the source's `!request.field` test) raises
`ValidationError` naming the first missing field in the order `id`,
`model`, `payload`, and issues no HTTP request (empty request log; the
client state is immutable and read-only, so no state changes either). -/
theorem updateResource_preflight_validation (st : ApitoClientState)
    (request : CreateAndUpdateRequest) (transport : HttpRequest → HttpResult) :
    (¬ request.id.truthy →
      updateResource st request transport =
        (.error (.validationError "id is required"), []))
  ∧ (request.id.truthy → ¬ request.model.truthy →
      updateResource st request transport =
        (.error (.validationError "model is required"), []))
  ∧ (request.id.truthy → request.model.truthy → ¬ request.payload.truthy →
      updateResource st request transport =
        (.error (.validationError "payload is required"), [])) := by
  refine ⟨fun h1 => ?_, fun h1 h2 => ?_, fun h1 h2 h3 => ?_⟩ <;>
    simp [updateResource, *]

/-- Witness for C3: the three kinds of invalid request each produce the
named `ValidationError` with an empty request log. -/
theorem updateResource_preflight_validation_witness :
    (updateResource ⟨"https://api.apito.io/graphql", "key", .undefined⟩
        { model := .str "todos", payload := .obj [("title", .str "t")] }
        (fun _ => .thrown .null) =
      (.error (.validationError "id is required"), []))
  ∧ (updateResource ⟨"https://api.apito.io/graphql", "key", .undefined⟩
        { id := .str "1", payload := .obj [("title", .str "t")] }
        (fun _ => .thrown .null) =
      (.error (.validationError "model is required"), []))
  ∧ (updateResource ⟨"https://api.apito.io/graphql", "key", .undefined⟩
        { id := .str "1", model := .str "todos" }
        (fun _ => .thrown .null) =
      (.error (.validationError "payload is required"), [])) :=
  ⟨(updateResource_preflight_validation _ _ _).1 (by decide),
   (updateResource_preflight_validation _ _ _).2.1 (by decide) (by decide),
   (updateResource_preflight_validation _ _ _).2.2 (by decide) (by decide)
     (by decide)⟩

/-- C4: a call to `createNewResource` whose request is missing `model` or
`payload` (falsy) raises `ValidationError` naming the missing field
(`model` checked first) and issues zero HTTP requests. -/
theorem createNewResource_preflight_validation (st : ApitoClientState)
    (request : CreateAndUpdateRequest) (transport : HttpRequest → HttpResult) :
    (¬ request.model.truthy →
      createNewResource st request transport =
        (.error (.validationError "model is required"), []))
  ∧ (request.model.truthy → ¬ request.payload.truthy →
      createNewResource st request transport =
        (.error (.validationError "payload is required"), [])) := by
  refine ⟨fun h1 => ?_, fun h1 h2 => ?_⟩ <;>
    simp [createNewResource, *]

/-- Witness for C4: both kinds of invalid request produce the named
`ValidationError` with an empty request log. -/
theorem createNewResource_preflight_validation_witness :
    (createNewResource ⟨"https://api.apito.io/graphql", "key", .undefined⟩
        { payload := .obj [("title", .str "t")] } (fun _ => .thrown .null) =
      (.error (.validationError "model is required"), []))
  ∧ (createNewResource ⟨"https://api.apito.io/graphql", "key", .undefined⟩
        { model := .str "todos" } (fun _ => .thrown .null) =
      (.error (.validationError "payload is required"), [])) :=
  ⟨(createNewResource_preflight_validation _ _ _).1 (by decide),
   (createNewResource_preflight_validation _ _ _).2 (by decide) (by decide)⟩

/-- C5: a call to `getRelationDocuments` whose connection map has no
`model` entry raises
`ValidationError("model is required in connection parameters")` and issues
zero HTTP requests. -/
theorem getRelationDocuments_missing_model (st : ApitoClientState)
    (id : String) (connection : JValue) (transport : HttpRequest → HttpResult)
    (h : "model" ∉ connection.objKeys) :
    getRelationDocuments st id connection transport =
      (.error (.validationError "model is required in connection parameters"),
       []) := by
  have hg : connection.get "model" = .undefined := get_eq_undefined_of_not_mem_keys h
  simp [getRelationDocuments, hg, JValue.truthy]

/-- Witness for C5: a connection carrying only a filter is rejected before
any request. -/
theorem getRelationDocuments_missing_model_witness :
    getRelationDocuments ⟨"https://api.apito.io/graphql", "key", .undefined⟩ "42"
        (.obj [("filter", .obj [("page", .num 1)])]) (fun _ => .thrown .null) =
      (.error (.validationError "model is required in connection parameters"),
       []) :=
  getRelationDocuments_missing_model _ _ _ _ (by decide)

/-- C9: `searchResources` builds its variables as `{model, ...filter}`, so
the filter map is spread after the `model` key: a filter carrying its own
`model` key overrides the `model` argument in the outgoing variables, and
otherwise `variables.model` is the `model` argument. The first conjunct
ties `searchVariables` to the request actually issued. -/
theorem searchResources_filter_spread (st : ApitoClientState) (model : String)
    (filter : List (String × JValue)) (aggregate : Bool)
    (transport : HttpRequest → HttpResult)
    (hnd : (filter.map Prod.fst).Nodup) :
    ((searchResources st model filter aggregate transport).2.map
        HttpRequest.vars = [searchVariables model filter])
  ∧ (∀ v, jLookup "model" filter = some v →
      jLookup "model" (searchVariables model filter) = some v)
  ∧ (jLookup "model" filter = none →
      jLookup "model" (searchVariables model filter) = some (.str model)) := by
  refine ⟨?_, fun v hv => ?_, fun hn => ?_⟩
  · unfold searchResources
    rw [unwrapField_log, executeGraphQL_log]
    rfl
  · exact jLookup_spread_mem_nodup _ hnd hv
  · unfold searchVariables
    rw [jLookup_spread_none _ hn]
    simp [jLookup]

/-- Witness for C9: a filter with its own `model` key wins; a filter
without one leaves the `model` argument in place. -/
theorem searchResources_filter_spread_witness :
    (jLookup "model" (searchVariables "todos"
        [("where", .obj [("status", .str "todo")]), ("model", .str "other")]) =
      some (.str "other"))
  ∧ (jLookup "model" (searchVariables "todos" [("limit", .num 10)]) =
      some (.str "todos")) :=
  ⟨(searchResources_filter_spread ⟨"u", "k", .undefined⟩ "todos"
        [("where", .obj [("status", .str "todo")]), ("model", .str "other")]
        false (fun _ => .thrown .null) (by decide)).2.1 _ rfl,
   (searchResources_filter_spread ⟨"u", "k", .undefined⟩ "todos"
        [("limit", .num 10)] false (fun _ => .thrown .null)
        (by decide)).2.2 rfl⟩

/-- C10: in the axios configuration built by the constructor, a falsy
configured timeout (`0`, absent) is replaced by the 30000 ms default via
`config.timeout || 30000`, and a truthy timeout reaches the transport
unchanged — provided the transport-override map `config.httpClient`, which
is spread last, does not itself carry a `timeout` key. -/
theorem constructor_timeout_default (config : ClientConfig)
    (h : "timeout" ∉ config.httpClient.objKeys) :
    (jLookup "timeout" (axiosCreateConfig config) =
      some (if config.timeout.truthy then config.timeout else .num 30000))
  ∧ (config.timeout = .num 0 →
      jLookup "timeout" (axiosCreateConfig config) = some (.num 30000))
  ∧ (¬ config.timeout.truthy →
      jLookup "timeout" (axiosCreateConfig config) = some (.num 30000))
  ∧ (config.timeout.truthy →
      jLookup "timeout" (axiosCreateConfig config) = some config.timeout) := by
  have hbase : jLookup "timeout" (axiosCreateConfig config) =
      some (if config.timeout.truthy then config.timeout else .num 30000) := by
    unfold axiosCreateConfig
    rw [jLookup_spreadJ_not_mem _ h]
    simp [jLookup]
  refine ⟨hbase, fun h0 => ?_, fun h0 => ?_, fun h0 => ?_⟩
  · rw [hbase, h0]
    simp [JValue.truthy]
  · rw [hbase, if_neg h0]
  · rw [hbase, if_pos h0]

/-- Witness for C10: timeout 0 becomes 30000; timeout 5000 passes through
even alongside an unrelated transport override. -/
theorem constructor_timeout_default_witness :
    (jLookup "timeout" (axiosCreateConfig
        { baseURL := "u", apiKey := "k", timeout := .num 0 }) =
      some (.num 30000))
  ∧ (jLookup "timeout" (axiosCreateConfig
        { baseURL := "u", apiKey := "k", timeout := .num 5000,
          httpClient := .obj [("maxRedirects", .num 3)] }) =
      some (.num 5000)) :=
  ⟨(constructor_timeout_default _ (by decide)).2.1 rfl,
   (constructor_timeout_default _ (by decide)).2.2.2 (by decide)⟩

/-- C7: every request carries the headers built by `execHeaders`; the
`X-Apito-Tenant-ID` header is attached exactly when the per-call tenant id
or the configured one is truthy, the per-call id winning when both are
(`options?.tenantId || this.tenantId`). -/
theorem tenant_header_attachment (st : ApitoClientState) (query : GqlDoc)
    (variables? : Option (List (String × JValue))) (optTenantId : JValue)
    (transport : HttpRequest → HttpResult) :
    ((executeGraphQL st query variables? optTenantId transport).2.map
        HttpRequest.headers =
      [execHeaders st.apiKey st.tenantId optTenantId])
  ∧ ((jLookup "X-Apito-Tenant-ID"
        (execHeaders st.apiKey st.tenantId optTenantId)).isSome =
      (optTenantId.truthy || st.tenantId.truthy))
  ∧ (optTenantId.truthy →
      jLookup "X-Apito-Tenant-ID"
          (execHeaders st.apiKey st.tenantId optTenantId) =
        some optTenantId)
  ∧ (¬ optTenantId.truthy → st.tenantId.truthy →
      jLookup "X-Apito-Tenant-ID"
          (execHeaders st.apiKey st.tenantId optTenantId) =
        some st.tenantId) := by
  refine ⟨?_, ?_, fun h => ?_, fun h1 h2 => ?_⟩
  · rw [executeGraphQL_log]
    rfl
  · by_cases h : (optTenantId.truthy || st.tenantId.truthy) = true <;>
      simp_all [execHeaders, jLookup]
  · simp [execHeaders, h, jLookup]
  · simp [execHeaders, h1, h2, jLookup]

/-- Witness for C7: per-call id beats the configured one; the configured
one is used when no per-call id is given; no header when neither exists. -/
theorem tenant_header_attachment_witness :
    (jLookup "X-Apito-Tenant-ID"
        (execHeaders "key" (.str "tenantA") (.str "tenantB")) =
      some (.str "tenantB"))
  ∧ (jLookup "X-Apito-Tenant-ID"
        (execHeaders "key" (.str "tenantA") .undefined) =
      some (.str "tenantA"))
  ∧ ((jLookup "X-Apito-Tenant-ID"
        (execHeaders "key" .undefined .undefined)).isSome = false) :=
  ⟨(tenant_header_attachment ⟨"u", "key", .str "tenantA"⟩ .debugDoc none
      (.str "tenantB") (fun _ => .thrown .null)).2.2.1 (by decide),
   (tenant_header_attachment ⟨"u", "key", .str "tenantA"⟩ .debugDoc none
      .undefined (fun _ => .thrown .null)).2.2.2 (by decide) (by decide),
   (tenant_header_attachment ⟨"u", "key", .undefined⟩ .debugDoc none
      .undefined (fun _ => .thrown .null)).2.1⟩

theorem jLookup_relation_tail (filter : JValue) (k : String)
    (hk : k ∈ (["page", "limit", "where", "search"] : List String)) :
    jLookup k (filterChunk filter "page" ++ filterChunk filter "limit" ++
        filterChunk filter "where" ++ filterChunk filter "search") =
      if (filter.get k).isUndefined then none else some (filter.get k) := by
  rcases show k = "page" ∨ k = "limit" ∨ k = "where" ∨ k = "search" by
      simpa using hk with rfl | rfl | rfl | rfl <;>
    by_cases hp : (filter.get "page").isUndefined <;>
    by_cases hl : (filter.get "limit").isUndefined <;>
    by_cases hw : (filter.get "where").isUndefined <;>
    by_cases hs : (filter.get "search").isUndefined <;>
    simp [filterChunk, jLookup, hp, hl, hw, hs]

/-- C6: with a valid connection, the variables actually sent are
`relationVariables connection`; they always contain `connection` and
`model`, contain each of `page`/`limit`/`where`/`search` exactly when that
key has a defined value in `connection.filter` (the source forwards on
`filter.k !== undefined`), and contain no other key — in particular every
other key of `connection.filter` is dropped. -/
theorem getRelationDocuments_forwards_filter (st : ApitoClientState)
    (id : String) (connection : JValue) (transport : HttpRequest → HttpResult)
    (hconn : (connection.get "model").truthy) :
    ((getRelationDocuments st id connection transport).2.map HttpRequest.vars =
      [relationVariables connection])
  ∧ (jLookup "connection" (relationVariables connection) = some connection)
  ∧ (jLookup "model" (relationVariables connection) =
      some (connection.get "model"))
  ∧ (∀ k, k ∈ (["page", "limit", "where", "search"] : List String) →
      jLookup k (relationVariables connection) =
        if ((connection.get "filter").get k).isUndefined then none
        else some ((connection.get "filter").get k))
  ∧ (∀ k, k ∉ (["connection", "model", "page", "limit", "where", "search"] :
        List String) →
      jLookup k (relationVariables connection) = none) := by
  refine ⟨?_, ?_, ?_, fun k hk => ?_, fun k hk => ?_⟩
  · unfold getRelationDocuments
    rw [if_neg (by simp [hconn]), unwrapField_log, executeGraphQL_log]
    rfl
  · simp only [relationVariables]
    exact jLookup_append_some _ (by simp [jLookup])
  · simp only [relationVariables]
    exact jLookup_append_some _ (by simp [jLookup])
  · have hbase : jLookup k
        [("connection", connection), ("model", connection.get "model")] =
          none := by
      rcases show k = "page" ∨ k = "limit" ∨ k = "where" ∨ k = "search" by
          simpa using hk with rfl | rfl | rfl | rfl <;> simp [jLookup]
    simp only [relationVariables]
    rw [jLookup_append_none _ hbase]
    by_cases hf : (connection.get "filter").truthy
    · rw [if_pos hf]
      exact jLookup_relation_tail _ _ hk
    · rw [if_neg hf]
      have hu : ((connection.get "filter").get k).isUndefined = true :=
        get_isUndefined_of_not_truthy (by simpa using hf)
      simp [jLookup, hu]
  · simp only [List.mem_cons, List.mem_singleton, not_or] at hk
    obtain ⟨h1, h2, h3, h4, h5, h6, -⟩ := hk
    have hbase : jLookup k
        [("connection", connection), ("model", connection.get "model")] =
          none := by
      have g1 : ¬("connection" = k) := fun h => h1 h.symm
      have g2 : ¬("model" = k) := fun h => h2 h.symm
      simp [jLookup, g1, g2]
    simp only [relationVariables]
    rw [jLookup_append_none _ hbase]
    by_cases hf : (connection.get "filter").truthy
    · rw [if_pos hf, List.append_assoc, List.append_assoc,
          jLookup_append_none _ (jLookup_filterChunk_ne _ (fun h => h3 h.symm)),
          jLookup_append_none _ (jLookup_filterChunk_ne _ (fun h => h4 h.symm)),
          jLookup_append_none _ (jLookup_filterChunk_ne _ (fun h => h5 h.symm)),
          jLookup_filterChunk_ne _ (fun h => h6 h.symm)]
    · rw [if_neg hf]
      rfl

/-- Witness for C6: with `filter = {page: 2, search: "x", extra: true}` the
variables carry `connection` and `page`, omit the absent `limit`, and drop
the non-whitelisted `extra` key. -/
theorem getRelationDocuments_forwards_filter_witness :
    (jLookup "connection" (relationVariables (.obj [("model", .str "todos"),
        ("filter", .obj [("page", .num 2), ("search", .str "x"),
                         ("extra", .bool true)])])) =
      some (.obj [("model", .str "todos"),
        ("filter", .obj [("page", .num 2), ("search", .str "x"),
                         ("extra", .bool true)])]))
  ∧ (jLookup "page" (relationVariables (.obj [("model", .str "todos"),
        ("filter", .obj [("page", .num 2), ("search", .str "x"),
                         ("extra", .bool true)])])) = some (.num 2))
  ∧ (jLookup "limit" (relationVariables (.obj [("model", .str "todos"),
        ("filter", .obj [("page", .num 2), ("search", .str "x"),
                         ("extra", .bool true)])])) = none)
  ∧ (jLookup "extra" (relationVariables (.obj [("model", .str "todos"),
        ("filter", .obj [("page", .num 2), ("search", .str "x"),
                         ("extra", .bool true)])])) = none) := by
  have h := getRelationDocuments_forwards_filter ⟨"u", "k", .undefined⟩ "1"
    (.obj [("model", .str "todos"),
      ("filter", .obj [("page", .num 2), ("search", .str "x"),
                       ("extra", .bool true)])])
    (fun _ => .thrown .null) (by decide)
  exact ⟨h.2.1, h.2.2.2.1 "page" (by decide), h.2.2.2.1 "limit" (by decide),
    h.2.2.2.2 "extra" (by decide)⟩

/-- C2: when the transport reports a failure (axios error: network error,
non-2xx, timeout), `executeGraphQL` — and with it every operation that
reaches the network — raises the base `ApitoError` with code `HTTP_ERROR`,
message `error.response?.data?.message || error.message` (the body's
`message` field when truthy, else the transport message), and the status
code and response body when a response is available. -/
theorem transport_failure_wraps_http_error (st : ApitoClientState)
    (msg : String) (response : Option AxiosErrorResponse) (query : GqlDoc)
    (variables? : Option (List (String × JValue))) (optTenantId : JValue)
    (model id token tenantId stage : String) (singlePageData aggregate : Bool)
    (filter : List (String × JValue)) (connection : JValue)
    (request : CreateAndUpdateRequest) (dataArgs : List JValue)
    (hconn : (connection.get "model").truthy) (hid : request.id.truthy)
    (hmodel : request.model.truthy) (hpayload : request.payload.truthy) :
    ((executeGraphQL st query variables? optTenantId
        (fun _ => .axiosFailure msg response)).1 =
      .error (.apitoError
        (if ((axiosBody response).get "message").truthy
         then (axiosBody response).get "message" else .str msg)
        (some "HTTP_ERROR")
        (response.map AxiosErrorResponse.status)
        (axiosBody response)))
  ∧ ((generateTenantToken st token tenantId
        (fun _ => .axiosFailure msg response)).1 =
      .error (httpFailureError msg response))
  ∧ ((getSingleResource st model id singlePageData
        (fun _ => .axiosFailure msg response)).1 =
      .error (httpFailureError msg response))
  ∧ ((searchResources st model filter aggregate
        (fun _ => .axiosFailure msg response)).1 =
      .error (httpFailureError msg response))
  ∧ ((getRelationDocuments st id connection
        (fun _ => .axiosFailure msg response)).1 =
      .error (httpFailureError msg response))
  ∧ ((createNewResource st request
        (fun _ => .axiosFailure msg response)).1 =
      .error (httpFailureError msg response))
  ∧ ((updateResource st request
        (fun _ => .axiosFailure msg response)).1 =
      .error (httpFailureError msg response))
  ∧ ((deleteResource st model id
        (fun _ => .axiosFailure msg response)).1 =
      .error (httpFailureError msg response))
  ∧ ((debug st stage dataArgs
        (fun _ => .axiosFailure msg response)).1 =
      .error (httpFailureError msg response)) := by
  refine ⟨?_, ?_, ?_, ?_, ?_, ?_, ?_, ?_, ?_⟩
  · exact executeGraphQL_axios_failure _ _ _ _ _ (fun _ => rfl)
  · unfold generateTenantToken
    exact withResponse_error _ _
      (executeGraphQL_axios_failure _ _ _ _ _ (fun _ => rfl))
  · unfold getSingleResource
    exact unwrapField_error _ _ _
      (executeGraphQL_axios_failure _ _ _ _ _ (fun _ => rfl))
  · unfold searchResources
    exact unwrapField_error _ _ _
      (executeGraphQL_axios_failure _ _ _ _ _ (fun _ => rfl))
  · unfold getRelationDocuments
    rw [if_neg (by simp [hconn])]
    exact unwrapField_error _ _ _
      (executeGraphQL_axios_failure _ _ _ _ _ (fun _ => rfl))
  · unfold createNewResource
    rw [if_neg (by simp [hmodel]), if_neg (by simp [hpayload])]
    exact unwrapField_error _ _ _
      (executeGraphQL_axios_failure _ _ _ _ _ (fun _ => rfl))
  · unfold updateResource
    rw [if_neg (by simp [hid]), if_neg (by simp [hmodel]),
        if_neg (by simp [hpayload])]
    exact unwrapField_error _ _ _
      (executeGraphQL_axios_failure _ _ _ _ _ (fun _ => rfl))
  · unfold deleteResource
    exact withResponse_error _ _
      (executeGraphQL_axios_failure _ _ _ _ _ (fun _ => rfl))
  · unfold debug
    exact withResponse_error _ _
      (executeGraphQL_axios_failure _ _ _ _ _ (fun _ => rfl))

/-- Witness for C2: a failure with a response whose body has a truthy
`message` (for `getRelationDocuments`), and a bare network error without a
response (for `updateResource`). -/
theorem transport_failure_wraps_http_error_witness :
    ((getRelationDocuments ⟨"u", "k", .undefined⟩ "1"
        (.obj [("model", .str "todos")])
        (fun _ => .axiosFailure "Request failed with status code 500"
          (some ⟨500, .obj [("message", .str "boom")]⟩))).1 =
      .error (.apitoError (.str "boom") (some "HTTP_ERROR") (some 500)
        (.obj [("message", .str "boom")])))
  ∧ ((updateResource ⟨"u", "k", .undefined⟩
        { id := .str "1", model := .str "todos",
          payload := .obj [("a", .num 1)] }
        (fun _ => .axiosFailure "Network Error" none)).1 =
      .error (.apitoError (.str "Network Error") (some "HTTP_ERROR") none
        .undefined)) := by
  refine ⟨?_, ?_⟩
  · exact (transport_failure_wraps_http_error ⟨"u", "k", .undefined⟩
      "Request failed with status code 500"
      (some ⟨500, .obj [("message", .str "boom")]⟩) .debugDoc none .undefined
      "todos" "1" "t" "t" "s" false false [] (.obj [("model", .str "todos")])
      { id := .str "1", model := .str "todos", payload := .obj [("a", .num 1)] }
      [] (by decide) (by decide) (by decide) (by decide)).2.2.2.2.1
  · exact (transport_failure_wraps_http_error ⟨"u", "k", .undefined⟩
      "Network Error" none .debugDoc none .undefined
      "todos" "1" "t" "t" "s" false false [] (.obj [("model", .str "todos")])
      { id := .str "1", model := .str "todos", payload := .obj [("a", .num 1)] }
      [] (by decide) (by decide) (by decide) (by decide)).2.2.2.2.2.2.1

/-- C1: when the POST succeeds but the envelope's `errors` sequence is
non-empty, `executeGraphQL` — and with it every operation — raises
`GraphQLError("GraphQL query failed")` carrying exactly that errors
sequence and the raw envelope. The envelope's `data` is unconstrained, so
the property holds even when `data` is populated. -/
theorem graphql_errors_always_fail (st : ApitoClientState)
    (resp : GraphQLResponse) (es : List JValue) (query : GqlDoc)
    (variables? : Option (List (String × JValue))) (optTenantId : JValue)
    (model id token tenantId stage : String) (singlePageData aggregate : Bool)
    (filter : List (String × JValue)) (connection : JValue)
    (request : CreateAndUpdateRequest) (dataArgs : List JValue)
    (herr : resp.errors = some es) (hne : es ≠ [])
    (hconn : (connection.get "model").truthy) (hid : request.id.truthy)
    (hmodel : request.model.truthy) (hpayload : request.payload.truthy) :
    ((executeGraphQL st query variables? optTenantId
        (fun _ => .success resp)).1 =
      .error (.graphQLError "GraphQL query failed" es resp))
  ∧ ((generateTenantToken st token tenantId (fun _ => .success resp)).1 =
      .error (.graphQLError "GraphQL query failed" es resp))
  ∧ ((getSingleResource st model id singlePageData
        (fun _ => .success resp)).1 =
      .error (.graphQLError "GraphQL query failed" es resp))
  ∧ ((searchResources st model filter aggregate (fun _ => .success resp)).1 =
      .error (.graphQLError "GraphQL query failed" es resp))
  ∧ ((getRelationDocuments st id connection (fun _ => .success resp)).1 =
      .error (.graphQLError "GraphQL query failed" es resp))
  ∧ ((createNewResource st request (fun _ => .success resp)).1 =
      .error (.graphQLError "GraphQL query failed" es resp))
  ∧ ((updateResource st request (fun _ => .success resp)).1 =
      .error (.graphQLError "GraphQL query failed" es resp))
  ∧ ((deleteResource st model id (fun _ => .success resp)).1 =
      .error (.graphQLError "GraphQL query failed" es resp))
  ∧ ((debug st stage dataArgs (fun _ => .success resp)).1 =
      .error (.graphQLError "GraphQL query failed" es resp)) := by
  refine ⟨?_, ?_, ?_, ?_, ?_, ?_, ?_, ?_, ?_⟩
  · exact executeGraphQL_errors_nonempty _ _ _ _ _ (fun _ => rfl) herr hne
  · unfold generateTenantToken
    exact withResponse_error _ _
      (executeGraphQL_errors_nonempty _ _ _ _ _ (fun _ => rfl) herr hne)
  · unfold getSingleResource
    exact unwrapField_error _ _ _
      (executeGraphQL_errors_nonempty _ _ _ _ _ (fun _ => rfl) herr hne)
  · unfold searchResources
    exact unwrapField_error _ _ _
      (executeGraphQL_errors_nonempty _ _ _ _ _ (fun _ => rfl) herr hne)
  · unfold getRelationDocuments
    rw [if_neg (by simp [hconn])]
    exact unwrapField_error _ _ _
      (executeGraphQL_errors_nonempty _ _ _ _ _ (fun _ => rfl) herr hne)
  · unfold createNewResource
    rw [if_neg (by simp [hmodel]), if_neg (by simp [hpayload])]
    exact unwrapField_error _ _ _
      (executeGraphQL_errors_nonempty _ _ _ _ _ (fun _ => rfl) herr hne)
  · unfold updateResource
    rw [if_neg (by simp [hid]), if_neg (by simp [hmodel]),
        if_neg (by simp [hpayload])]
    exact unwrapField_error _ _ _
      (executeGraphQL_errors_nonempty _ _ _ _ _ (fun _ => rfl) herr hne)
  · unfold deleteResource
    exact withResponse_error _ _
      (executeGraphQL_errors_nonempty _ _ _ _ _ (fun _ => rfl) herr hne)
  · unfold debug
    exact withResponse_error _ _
      (executeGraphQL_errors_nonempty _ _ _ _ _ (fun _ => rfl) herr hne)

/-- Witness for C1: an envelope with populated `data` and one error still
fails with `GraphQLError` carrying that error and the whole envelope, for
`getSingleResource` and for `createNewResource`. -/
theorem graphql_errors_always_fail_witness :
    ((getSingleResource ⟨"u", "k", .undefined⟩ "todos" "123" false
        (fun _ => .success
          ⟨.obj [("getSingleData", .obj [("id", .str "123")])],
           some [.obj [("message", .str "Field error")]]⟩)).1 =
      .error (.graphQLError "GraphQL query failed"
        [.obj [("message", .str "Field error")]]
        ⟨.obj [("getSingleData", .obj [("id", .str "123")])],
         some [.obj [("message", .str "Field error")]]⟩))
  ∧ ((createNewResource ⟨"u", "k", .undefined⟩
        { id := .str "1", model := .str "todos", payload := .obj [("a", .num 1)] }
        (fun _ => .success
          ⟨.obj [("getSingleData", .obj [("id", .str "123")])],
           some [.obj [("message", .str "Field error")]]⟩)).1 =
      .error (.graphQLError "GraphQL query failed"
        [.obj [("message", .str "Field error")]]
        ⟨.obj [("getSingleData", .obj [("id", .str "123")])],
         some [.obj [("message", .str "Field error")]]⟩)) := by
  have h := graphql_errors_always_fail ⟨"u", "k", .undefined⟩
    ⟨.obj [("getSingleData", .obj [("id", .str "123")])],
     some [.obj [("message", .str "Field error")]]⟩
    [.obj [("message", .str "Field error")]] .debugDoc none .undefined
    "todos" "123" "t" "t" "s" false false [] (.obj [("model", .str "todos")])
    { id := .str "1", model := .str "todos", payload := .obj [("a", .num 1)] }
    [] rfl (by simp) (by decide) (by decide) (by decide) (by decide)
  exact ⟨h.2.2.1, h.2.2.2.2.2.1⟩

/-- C8 counterexample: `searchResourcesTyped` does not always return the
value `searchResources` returns. With a mocked envelope whose
`getModelData` carries an extra field beside `results` and `count`, the
untyped method returns the field as-is while the typed wrapper rebuilds
`{results, count}`, dropping `extra` — so the values differ at runtime. -/
theorem typed_search_not_identical :
    (searchResourcesTyped ⟨"u", "k", .undefined⟩ "todos" [] false
        (fun _ => .success ⟨.obj [("getModelData",
          .obj [("results", .arr []), ("count", .num 0),
                ("extra", .bool true)])], none⟩)).1 ≠
    (searchResources ⟨"u", "k", .undefined⟩ "todos" [] false
        (fun _ => .success ⟨.obj [("getModelData",
          .obj [("results", .arr []), ("count", .num 0),
                ("extra", .bool true)])], none⟩)).1 := by
  have hA : (searchResourcesTyped ⟨"u", "k", .undefined⟩ "todos" [] false
      (fun _ => .success ⟨.obj [("getModelData",
        .obj [("results", .arr []), ("count", .num 0),
              ("extra", .bool true)])], none⟩)).1 =
      .ok (.obj [("results", .arr []), ("count", .num 0)]) := rfl
  have hB : (searchResources ⟨"u", "k", .undefined⟩ "todos" [] false
      (fun _ => .success ⟨.obj [("getModelData",
        .obj [("results", .arr []), ("count", .num 0),
              ("extra", .bool true)])], none⟩)).1 =
      .ok (.obj [("results", .arr []), ("count", .num 0),
                 ("extra", .bool true)]) := rfl
  rw [hA, hB]
  intro h
  simp at h

/-- C8 amended: the typed wrapper issues identical requests and propagates
identical errors for all five methods; `getSingleResourceTyped`,
`createNewResourceTyped` and `updateResourceTyped` return the underlying
value unchanged; `searchResourcesTyped` and `getRelationDocumentsTyped`
return the underlying result projected to `{results, count}`, which equals
the underlying value whenever it is an object with exactly those two
fields. -/
theorem typed_operations_delegate (st : ApitoClientState)
    (model id : String) (singlePageData aggregate : Bool)
    (filter : List (String × JValue)) (connection : JValue)
    (request : CreateAndUpdateRequest)
    (transport : HttpRequest → HttpResult) :
    (getSingleResourceTyped st model id singlePageData transport =
      getSingleResource st model id singlePageData transport)
  ∧ (createNewResourceTyped st request transport =
      createNewResource st request transport)
  ∧ (updateResourceTyped st request transport =
      updateResource st request transport)
  ∧ ((searchResourcesTyped st model filter aggregate transport).2 =
      (searchResources st model filter aggregate transport).2)
  ∧ ((searchResourcesTyped st model filter aggregate transport).1 =
      (searchResources st model filter aggregate transport).1.map
        projectSearchResult)
  ∧ ((getRelationDocumentsTyped st id connection transport).2 =
      (getRelationDocuments st id connection transport).2)
  ∧ ((getRelationDocumentsTyped st id connection transport).1 =
      (getRelationDocuments st id connection transport).1.map
        projectSearchResult)
  ∧ (∀ x n : JValue,
      projectSearchResult (.obj [("results", x), ("count", n)]) =
        .obj [("results", x), ("count", n)]) :=
  ⟨rfl, rfl, rfl, mapOkResult_log _ _, mapOkResult_fst _ _,
   mapOkResult_log _ _, mapOkResult_fst _ _, fun x n => rfl⟩

end ApitoSDK
